import Mathlib

/-!
Verification of the storage, control-plane and process-lifecycle layer of the
crypto-ml-training-standalone repository.

The document store (Google Firestore in the source) is modelled shallowly: a
collection is an association list from document id to document, a document is
an association list from field name to value.  Candle timestamps
(`open_time`) are modelled as integers (seconds since the epoch); the
Firestore document id `pd.to_datetime(row['open_time']).isoformat()` is an
injective function of the timestamp, so document ids are modelled by the
timestamp itself.  Numeric field payloads are modelled as integers: none of
the verified properties depend on the arithmetic of the stored floats, only
on which value is stored where.
-/

set_option maxRecDepth 100000

namespace CryptoML

/-- A stored field value: a number, a list of numbers (a prediction vector),
or null. -/
inductive PyVal where
  | num (n : Int)
  | arr (xs : List Int)
  | vnull
  deriving DecidableEq, Repr

/-- A Firestore document: association list from field name to value. -/
abbrev Doc := List (String × PyVal)

/-- A Firestore collection: association list from document id to document.
Document ids are the candle `open_time` (see module docstring). -/
abbrev Store := List (Int × Doc)

/-- Field lookup in a document (first binding wins, as in a Python dict
serialised to Firestore). -/
def getField (d : Doc) (k : String) : Option PyVal :=
  match d with
  | [] => none
  | (k', v) :: rest => if k' = k then some v else getField rest k

/-- Set a field of a document, replacing an existing binding or appending a
new one (Python dict assignment / Firestore field update). -/
def setField (d : Doc) (k : String) (v : PyVal) : Doc :=
  match d with
  | [] => [(k, v)]
  | (k', v') :: rest => if k' = k then (k, v) :: rest else (k', v') :: setField rest k v

/-- The `open_time` field of a document, when present and numeric.  Mirrors
the `if time in data` guards of `db.py`. -/
def getTime (d : Doc) : Option Int :=
  match getField d "open_time" with
  | some (.num t) => some t
  | _ => none

/-- Maximum of a list of integers, `none` on the empty list. -/
def maxTime : List Int → Option Int
  | [] => none
  | t :: ts =>
    match maxTime ts with
    | none => some t
    | some m => some (max t m)

/-- The timestamps present in a collection (documents lacking a numeric
`open_time` contribute nothing, as in the Firestore `order_by` query). -/
def storeTimes (s : Store) : List Int :=
  s.filterMap (fun p => getTime p.2)

/-- Latest `open_time` in the collection: the result of
`order_by(time, DESCENDING).limit(1)` in `CryptoDB._keep_last_365_days`. -/
def latestTime (s : Store) : Option Int :=
  maxTime (storeTimes s)

/-- `timedelta(days=180)` in seconds: the retention cutoff used by
`CryptoDB._keep_last_365_days` (the function name says 365, the code uses
180 days). -/
def days180 : Int := 180 * 86400

/-- `CryptoDB._keep_last_365_days`: find the latest timestamp; if the
collection is empty do nothing; otherwise delete every document whose time
field is strictly older than `latest - 180 days`.  Documents without a
numeric time field are not matched by the range query and are kept.
Batch-commit boundaries of the delete loop do not affect the final state and
are elided. -/
def keep_last_365_days (s : Store) : Store :=
  match latestTime s with
  | none => s
  | some latest =>
    s.filter (fun p =>
      match getTime p.2 with
      | some t => decide (¬ (t < latest - days180))
      | none => true)

/-- A two-document collection used as a concrete witness for the retention
theorem: one stale candle and one recent candle. -/
def retentionDemoStore : Store :=
  [(0, [("open_time", PyVal.num 0)]),
   (20000000, [("open_time", PyVal.num 20000000)])]

/-- C7: after retention trimming runs on a collection, every remaining
document with a numeric time field has `open_time ≥ latest − 180 days`,
where `latest` is the collection's latest timestamp. -/
theorem retention_no_doc_older_than_cutoff (s : Store) (id : Int) (d : Doc)
    (t L : Int) (hmem : (id, d) ∈ keep_last_365_days s)
    (ht : getTime d = some t) (hL : latestTime s = some L) :
    L - days180 ≤ t := by
  unfold keep_last_365_days at hmem
  rw [hL] at hmem
  have hpred := (List.mem_filter.mp hmem).2
  simp only [ht] at hpred
  have := of_decide_eq_true hpred
  omega

/-- Witness for C7: in the concrete two-candle collection the recent candle
survives trimming and satisfies the retention bound. -/
theorem retention_no_doc_older_than_cutoff_witness :
    (20000000 : Int) - days180 ≤ 20000000 :=
  retention_no_doc_older_than_cutoff retentionDemoStore 20000000
    [("open_time", PyVal.num 20000000)] 20000000 20000000
    (by decide) (by decide) (by decide)

/-! ## ControlPlane: `consumer_utils.state_write` and `consumer_utils.state_checker`

The state directory is modelled as an association list from filename to the
parsed content of the JSON file last written there.  `state_write` serialises
a fresh five-field dict and writes it with `open(filepath, 'w')` +
`json.dump`, i.e. the file is replaced wholesale. -/

/-- The JSON record written by `state_write`. -/
structure StateRecord where
  crypto : String
  model : String
  version : String
  state : String
  error_msg : String
  deriving DecidableEq, Repr

/-- State directory contents: filename → last written record. -/
abbrev StateDir := List (String × StateRecord)

/-- Filename generation shared by `state_write`, `state_checker`,
`get_state_data` and `delete_state`. -/
def state_filename (crypto model version : String) : String :=
  if crypto = "ALL" ∧ model = "producer" then "ALL_producer_main.json"
  else crypto ++ "_" ++ model ++ "_" ++ version ++ ".json"

/-- Write (create or replace) a file in the state directory. -/
def putFile (dir : StateDir) (name : String) (r : StateRecord) : StateDir :=
  match dir with
  | [] => [(name, r)]
  | (n, r') :: rest => if n = name then (name, r) :: rest else (n, r') :: putFile rest name r

/-- Read a file from the state directory. -/
def readFile (dir : StateDir) (name : String) : Option StateRecord :=
  match dir with
  | [] => none
  | (n, r) :: rest => if n = name then some r else readFile rest name

/-- `consumer_utils.state_write(crypto, model, version, state, error_msg="")`:
builds the five-field `state_data` dict from exactly the call's arguments and
dumps it over the file, replacing any previous content.  The Python default
for `error_msg` is the empty string. -/
def state_write (dir : StateDir) (crypto model version state : String)
    (error_msg : String) : StateDir :=
  putFile dir (state_filename crypto model version)
    { crypto := crypto, model := model, version := version,
      state := state, error_msg := error_msg }

/-- Prior state-directory content for the C2 counterexample: the entity's
record carries a stored error message. -/
def errDemoDir : StateDir :=
  [("BTCUSDT_lightgbm_v1.json",
    { crypto := "BTCUSDT", model := "lightgbm", version := "v1",
      state := "error", error_msg := "boom" })]

/-- C2 counterexample: `state_write` does not merge.  Writing state
`running` with no error message over a record whose `error_msg` is `boom`
clears the error message instead of preserving it. -/
theorem state_write_not_merge_cex :
    readFile (state_write errDemoDir "BTCUSDT" "lightgbm" "v1" "running" "")
        "BTCUSDT_lightgbm_v1.json"
      = some { crypto := "BTCUSDT", model := "lightgbm", version := "v1",
               state := "running", error_msg := "" } ∧
    readFile (state_write errDemoDir "BTCUSDT" "lightgbm" "v1" "running" "")
        "BTCUSDT_lightgbm_v1.json"
      ≠ some { crypto := "BTCUSDT", model := "lightgbm", version := "v1",
               state := "running", error_msg := "boom" } :=
  ⟨by decide, by decide⟩

/-- Reading back the file just written returns exactly the written record. -/
theorem readFile_putFile (dir : StateDir) (name : String) (r : StateRecord) :
    readFile (putFile dir name r) name = some r := by
  induction dir with
  | nil => simp [putFile, readFile]
  | cons p rest ih =>
    obtain ⟨n, r'⟩ := p
    by_cases h : n = name
    · simp [putFile, readFile, h]
    · simp [putFile, readFile, h, ih]

/-- C2 amended: `state_write` has upsert-with-replace semantics.  For every
entity and every previous directory content, the stored record afterwards
consists of exactly the five fields of the call; fields not provided are
reset to their defaults (`error_msg` becomes the empty string), so a
previously stored error message is overwritten, not preserved. -/
theorem state_write_replaces_record (dir : StateDir) (c m v s e : String) :
    readFile (state_write dir c m v s e) (state_filename c m v)
      = some { crypto := c, model := m, version := v, state := s, error_msg := e } :=
  readFile_putFile dir (state_filename c m v) _

/-! ### `state_checker` -/

/-- A JSON value, as produced by `json.load`. -/
inductive Json where
  | jnull
  | jbool (b : Bool)
  | jnum (n : Int)
  | jstr (s : String)
  | jarr (elems : List Json)
  | jobj (fields : List (String × Json))

/-- Python exceptions that `state_checker` can let escape. -/
inductive PyErr where
  | attributeError
  | notFound
  | valueError
  | typeError
  | quotaExhausted
  | internalError
  deriving DecidableEq, Repr

/-- The observable outcome of trying to read the state file: it never
appeared within the timeout, reading raised `IOError`, parsing raised
`JSONDecodeError`, or it parsed to a JSON value. -/
inductive ReadOutcome where
  | absent
  | ioError
  | parseFailed
  | parsed (j : Json)

/-- Association lookup in a parsed JSON object (`dict.get`). -/
def jsonLookup (fields : List (String × Json)) (k : String) : Option Json :=
  match fields with
  | [] => none
  | (k', v) :: rest => if k' = k then some v else jsonLookup rest k

/-- `True` exactly on JSON objects (Python dicts). -/
def isJsonObj : Json → Bool
  | .jobj _ => true
  | _ => false

/-- `consumer_utils.state_checker`: wait for the state file, returning
`unknown` if it never appears before the timeout; then read and parse it,
returning `state_data.get("state", "unknown")`.  The `except` clause catches
`JSONDecodeError`, `KeyError` and `IOError` and returns `unknown`; but if
the file holds valid JSON whose top level is not an object, `.get` does not
exist on the parsed value and `AttributeError` escapes. -/
def state_checker (file : ReadOutcome) : Except PyErr Json :=
  match file with
  | .absent => .ok (.jstr "unknown")
  | .ioError => .ok (.jstr "unknown")
  | .parseFailed => .ok (.jstr "unknown")
  | .parsed (.jobj fields) => .ok ((jsonLookup fields "state").getD (.jstr "unknown"))
  | .parsed _ => .error .attributeError

/-- C10 counterexample: a state file holding the valid JSON text `[]` makes
`state_checker` raise `AttributeError` instead of returning a string. -/
theorem state_checker_raises_cex :
    state_checker (.parsed (.jarr [])) = .error .attributeError ∧
    state_checker (.parsed (.jarr [])) ≠ .ok (.jstr "unknown") :=
  ⟨rfl, by simp [state_checker]⟩

/-- C10 amended: `state_checker` returns `unknown` when the file is absent
beyond the timeout, unreadable, or unparsable, and when it parses to a JSON
object lacking a `state` field; on any JSON object it returns normally
(with the object's `state` value, of whatever JSON type); but on valid JSON
whose top level is not an object it raises `AttributeError` instead of
returning. -/
theorem state_checker_cases :
    state_checker .absent = .ok (.jstr "unknown") ∧
    state_checker .ioError = .ok (.jstr "unknown") ∧
    state_checker .parseFailed = .ok (.jstr "unknown") ∧
    (∀ fields, jsonLookup fields "state" = none →
      state_checker (.parsed (.jobj fields)) = .ok (.jstr "unknown")) ∧
    (∀ fields, ∃ v, state_checker (.parsed (.jobj fields)) = .ok v) ∧
    (∀ j, isJsonObj j = false → state_checker (.parsed j) = .error .attributeError) := by
  refine ⟨rfl, rfl, rfl, ?_, ?_, ?_⟩
  · intro fields h
    simp [state_checker, h]
  · intro fields
    exact ⟨_, rfl⟩
  · intro j h
    cases j <;> simp_all [isJsonObj, state_checker]

/-- Witness for C10 amended: a concrete object file without a `state` field
yields `unknown`, and a concrete non-object file raises. -/
theorem state_checker_cases_witness :
    state_checker (.parsed (.jobj [("x", Json.jnull)])) = .ok (.jstr "unknown") ∧
    state_checker (.parsed (.jarr [])) = .error .attributeError :=
  ⟨state_checker_cases.2.2.2.1 [("x", Json.jnull)] rfl,
   state_checker_cases.2.2.2.2.2 (.jarr []) rfl⟩

/-! ## Producer main loop (`producer.py`, `main`)

One iteration of the `while True` loop is modelled as a function of the
polled control state and of the outcomes of the iteration's effectful steps
(fetch, persist, CSV append, publish).  `download_full_history` catches its
own request errors internally and returns a (possibly empty) frame, so the
fetch step is modelled by whether any new rows remained after filtering. -/

/-- How one iteration of the producer main loop ends. -/
inductive IterOutcome where
  /-- `delete` state: write `deleted` and break out of the loop; the process
  then ends normally (exit status 0). -/
  | stopDeleted
  /-- `pause` state: sleep 10 s and re-poll without fetching. -/
  | pauseSleepRepoll
  /-- Unrecognised state: log a warning, sleep 10 s, re-poll without
  fetching. -/
  | unknownSleepRepoll
  /-- No new rows after fetching/filtering: sleep 60 s, re-poll. -/
  | noDataSleepRepoll
  /-- An exception reached the per-iteration handler (line 371): log,
  sleep 10 s, continue the loop. -/
  | errorSleepContinue
  /-- Fetch, persist, CSV append and publish all ran; sleep to the next
  minute boundary. -/
  | cycleCompleted
  /-- The process terminates with a non-zero exit status (what the spec
  predicts for a persist failure; the loop body never produces this). -/
  | exitNonZero
  deriving DecidableEq, Repr

/-- One iteration of the producer main loop (producer.py lines 277-383).
`fetchedNew`: the downloaded frame had rows newer than `last_time`;
`persistOk`: `crypto_db.bulk_insert_df` did not raise; `csvOk`: the CSV
append did not raise (its failure is logged and swallowed, lines 354-355);
`publishOk`: `send_df_to_quix` did not raise.  A persist failure is
re-raised at line 334 and caught by the enclosing per-iteration handler at
line 371, which sleeps 10 s and continues. -/
def producer_iteration (state : String) (fetchedNew persistOk csvOk publishOk : Bool) :
    IterOutcome :=
  if state = "delete" then .stopDeleted
  else if state = "pause" then .pauseSleepRepoll
  else if state ≠ "running" ∧ state ≠ "start" then .unknownSleepRepoll
  else
    if ¬ fetchedNew then .noDataSleepRepoll
    else if ¬ persistOk then .errorSleepContinue
    else
      let _csvFailureSwallowed := csvOk
      if ¬ publishOk then .errorSleepContinue
      else .cycleCompleted

/-- The control-plane state the producer writes during one iteration, if
any: `delete` → `deleted` (before breaking), `start` → `running` (before
fetching); no write otherwise. -/
def producer_state_rewrite (state : String) : Option String :=
  if state = "delete" then some "deleted"
  else if state = "pause" then none
  else if state ≠ "running" ∧ state ≠ "start" then none
  else if state = "start" then some "running"
  else none

/-- C1: with the control state `running` and fresh rows fetched, a persist
failure (`bulk_insert_df` raising) makes the iteration end in
log-sleep-continue: the producer keeps polling and does not exit, with any
status. -/
theorem producer_persist_failure_continues :
    producer_iteration "running" true false true true = .errorSleepContinue ∧
    producer_iteration "running" true false true true ≠ .exitNonZero ∧
    producer_iteration "running" true false true true ≠ .stopDeleted := by
  decide

/-- C3 counterexample: the state `unknown` (returned by `state_checker`
whenever the state file is missing) is not treated as `running`: even with
every effectful step able to succeed, the iteration warns, sleeps and
re-polls without fetching. -/
theorem producer_unknown_state_not_running_cex :
    producer_iteration "unknown" true true true true = .unknownSleepRepoll ∧
    producer_iteration "unknown" true true true true ≠ .cycleCompleted := by
  decide

/-- C3 amended: `delete` → write `deleted` and stop; `pause` → sleep and
re-poll without fetching; `running` and `start` proceed to fetch, persist
and publish (`start` additionally rewrites the stored state to `running`);
every other state value warns, sleeps and re-polls without fetching. -/
theorem producer_control_dispatch :
    (∀ f p c pub, producer_iteration "delete" f p c pub = .stopDeleted) ∧
    producer_state_rewrite "delete" = some "deleted" ∧
    (∀ f p c pub, producer_iteration "pause" f p c pub = .pauseSleepRepoll) ∧
    (∀ s, s ≠ "delete" → s ≠ "pause" → s ≠ "running" → s ≠ "start" →
      ∀ f p c pub, producer_iteration s f p c pub = .unknownSleepRepoll) ∧
    producer_iteration "running" true true true true = .cycleCompleted ∧
    producer_iteration "start" true true true true = .cycleCompleted ∧
    producer_state_rewrite "start" = some "running" ∧
    producer_state_rewrite "running" = none := by
  refine ⟨by decide, by decide, by decide, ?_, by decide, by decide, by decide, by decide⟩
  intro s h1 h2 h3 h4 f p c pub
  simp [producer_iteration, h1, h2, h3, h4]

/-- Witness for C3 amended: the stale state `deleted` (left over from a
previous shutdown) is a concrete "other" state and leads to
warn-sleep-repoll. -/
theorem producer_control_dispatch_witness :
    producer_iteration "deleted" true true true true = .unknownSleepRepoll :=
  producer_control_dispatch.2.2.2.1 "deleted" (by decide) (by decide) (by decide)
    (by decide) true true true true

/-! ## `CryptoDB.bulk_insert_df` (db.py lines 265-348)

The candle frame is a list of rows; each row becomes a document keyed by its
`open_time` and written with `batch.set(..., merge=True)`.  Commits are
driven by an oracle: a list of outcomes consumed one per `batch.commit()`
attempt; an exhausted oracle means the commit succeeds.  The 0.1 s pacing
sleeps (every 1000 rows) are elided; the 60 s quota backoff is recorded. -/

/-- Outcome of one `batch.commit()` attempt against the document store. -/
inductive CommitOutcome where
  | ok
  /-- Rate limiting: message matches `quota` / `429` / `ResourceExhausted`. -/
  | quotaErr
  /-- Any other commit failure. -/
  | otherErr
  deriving DecidableEq, Repr

/-- One row of the candle frame handed to `bulk_insert_df`.  `opn` models
the `open` column (a Lean keyword); `none` models a NaN that is stored as
Firestore null. -/
structure CandleRow where
  open_time : Int
  opn : Option Int
  high : Option Int
  low : Option Int
  close : Option Int
  volume : Option Int
  deriving DecidableEq, Repr

/-- `float(row[c]) if pd.notna(row[c]) else None`. -/
def optVal : Option Int → PyVal
  | some x => .num x
  | none => .vnull

/-- The `doc_data` dict built for one row (db.py lines 287-294): exactly the
six candle columns, nothing else. -/
def candleDoc (r : CandleRow) : Doc :=
  [("open_time", PyVal.num r.open_time),
   ("open", optVal r.opn),
   ("high", optVal r.high),
   ("low", optVal r.low),
   ("close", optVal r.close),
   ("volume", optVal r.volume)]

/-- Merge new fields into an existing document
(`set(..., merge=True)` on an existing document). -/
def mergeDoc (base new : Doc) : Doc :=
  new.foldl (fun acc kv => setField acc kv.1 kv.2) base

/-- `batch.set(doc_ref, doc_data, merge=True)` applied to the store: merge
into the existing document or create it. -/
def setMerge (s : Store) (id : Int) (d : Doc) : Store :=
  match s with
  | [] => [(id, d)]
  | (id', d') :: rest =>
    if id' = id then (id, mergeDoc d' d) :: rest else (id', d') :: setMerge rest id d

/-- Apply a committed batch of set-with-merge writes in insertion order. -/
def applyBatch (s : Store) (batch : List (Int × Doc)) : Store :=
  batch.foldl (fun acc w => setMerge acc w.1 w.2) s

/-- Draw the next commit outcome from the oracle (exhausted oracle:
success). -/
def nextOutcome : List CommitOutcome → CommitOutcome × List CommitOutcome
  | [] => (.ok, [])
  | o :: os => (o, os)

/-- Result of a bulk insert: final collection contents, the sizes of the
chunks committed in order, how many chunk retries were performed, seconds
slept in quota backoff, and the exception that propagated, if any. -/
structure BulkResult where
  store : Store
  chunks : List Nat
  retries : Nat
  slept : Nat
  error : Option PyErr
  deriving DecidableEq, Repr

/-- The row loop of `bulk_insert_df` (db.py lines 282-340).  The pending
batch is kept in reverse insertion order and reversed at commit time.  A
full batch (500 documents) that fails with a quota error sleeps 60 s and is
retried exactly once, any other failure of it propagates (lines 311-327);
the final partial batch is committed without any retry (lines 334-340). -/
def bulk_insert_loop (rows : List CandleRow) (store : Store)
    (batch : List (Int × Doc)) (batchCount : Nat)
    (outcomes : List CommitOutcome) (chunks : List Nat)
    (retries slept : Nat) : BulkResult :=
  match rows with
  | [] =>
    if batchCount > 0 then
      match nextOutcome outcomes with
      | (.ok, _) =>
        { store := applyBatch store batch.reverse, chunks := chunks ++ [batchCount],
          retries := retries, slept := slept, error := none }
      | (.quotaErr, _) =>
        { store := store, chunks := chunks, retries := retries, slept := slept,
          error := some .quotaExhausted }
      | (.otherErr, _) =>
        { store := store, chunks := chunks, retries := retries, slept := slept,
          error := some .internalError }
    else
      { store := store, chunks := chunks, retries := retries, slept := slept,
        error := none }
  | r :: rest =>
    let batch' := (r.open_time, candleDoc r) :: batch
    let bc := batchCount + 1
    if bc ≥ 500 then
      match nextOutcome outcomes with
      | (.ok, os) =>
        bulk_insert_loop rest (applyBatch store batch'.reverse) [] 0 os
          (chunks ++ [bc]) retries slept
      | (.quotaErr, os) =>
        match nextOutcome os with
        | (.ok, os') =>
          bulk_insert_loop rest (applyBatch store batch'.reverse) [] 0 os'
            (chunks ++ [bc]) (retries + 1) (slept + 60)
        | (.quotaErr, _) =>
          { store := store, chunks := chunks, retries := retries + 1,
            slept := slept + 60, error := some .quotaExhausted }
        | (.otherErr, _) =>
          { store := store, chunks := chunks, retries := retries + 1,
            slept := slept + 60, error := some .internalError }
      | (.otherErr, _) =>
        { store := store, chunks := chunks, retries := retries, slept := slept,
          error := some .internalError }
    else
      bulk_insert_loop rest store batch' bc outcomes chunks retries slept

/-- `CryptoDB.bulk_insert_df`: early return on an empty frame; otherwise run
the row loop and, on success, trim the collection
(`self._keep_last_365_days`, line 343). -/
def bulk_insert_df (rows : List CandleRow) (store : Store)
    (outcomes : List CommitOutcome) : BulkResult :=
  if rows.length = 0 then
    { store := store, chunks := [], retries := 0, slept := 0, error := none }
  else
    let r := bulk_insert_loop rows store [] 0 outcomes [] 0 0
    match r.error with
    | none => { r with store := keep_last_365_days r.store }
    | some e => { r with error := some e }

/-- 1,234 one-minute candles, the write size used by the spec's chunking
example. -/
def c4Rows : List CandleRow :=
  (List.range 1234).map (fun i =>
    { open_time := Int.ofNat (60 * i), opn := some 1, high := some 2,
      low := some 0, close := some 1, volume := some 3 })

/-- C4 counterexample: when the commit of the final partial chunk (the 234
rows) fails with a quota error, the error propagates after zero retries —
not after "exactly one retry" as claimed for every chunk. -/
theorem bulk_insert_final_chunk_no_retry_cex :
    (bulk_insert_df c4Rows [] [.ok, .ok, .quotaErr]).error = some .quotaExhausted ∧
    (bulk_insert_df c4Rows [] [.ok, .ok, .quotaErr]).retries = 0 ∧
    (bulk_insert_df c4Rows [] [.ok, .ok, .quotaErr]).slept = 0 ∧
    (bulk_insert_df c4Rows [] [.ok, .ok, .quotaErr]).chunks = [500, 500] := by
  refine ⟨by decide, by decide, by decide, by decide⟩

/-- C4 amended: a write of 1,234 records against the batch limit of 500
commits exactly 3 chunks (500, 500, 234).  A quota error on a full in-loop
chunk causes one 60 s backoff and exactly one retry of that chunk before
either succeeding or propagating; a non-quota failure of a full chunk, and
any commit failure of the final partial chunk, propagate immediately with
no retry. -/
theorem bulk_insert_chunking_and_retry :
    (bulk_insert_df c4Rows [] []).chunks = [500, 500, 234] ∧
    (bulk_insert_df c4Rows [] []).retries = 0 ∧
    (bulk_insert_df c4Rows [] []).error = none ∧
    (bulk_insert_df c4Rows [] [.quotaErr, .ok]).chunks = [500, 500, 234] ∧
    (bulk_insert_df c4Rows [] [.quotaErr, .ok]).retries = 1 ∧
    (bulk_insert_df c4Rows [] [.quotaErr, .ok]).slept = 60 ∧
    (bulk_insert_df c4Rows [] [.quotaErr, .ok]).error = none ∧
    (bulk_insert_df c4Rows [] [.quotaErr, .otherErr]).chunks = [] ∧
    (bulk_insert_df c4Rows [] [.quotaErr, .otherErr]).retries = 1 ∧
    (bulk_insert_df c4Rows [] [.quotaErr, .otherErr]).error = some .internalError ∧
    (bulk_insert_df c4Rows [] [.otherErr]).retries = 0 ∧
    (bulk_insert_df c4Rows [] [.otherErr]).error = some .internalError ∧
    (bulk_insert_df c4Rows [] [.ok, .ok, .quotaErr]).error = some .quotaExhausted ∧
    (bulk_insert_df c4Rows [] [.ok, .ok, .quotaErr]).retries = 0 := by
  refine ⟨by decide, by decide, by decide, by decide, by decide, by decide, by decide,
    by decide, by decide, by decide, by decide, by decide, by decide, by decide⟩

/-! ## `ModelVersionManager.register_new_model` (model_version_manager.py)

The registry for one model type holds three optional slots.  A version entry
is modelled by the artifact it points at (`created_at` and `metadata` are
elided).  `shutil.copy2(src, dir/src.name)` keeps the basename, so the file
system is modelled as the set of artifact basenames present; copies add
nothing new to it.  The `path.exists()` guards of the source are kept. -/

/-- A registry slot entry: the artifact it points at. -/
structure VersionInfo where
  path : String
  deriving DecidableEq, Repr

/-- The three version slots for one model type. -/
structure RegistryEntry where
  v1 : Option VersionInfo
  v2 : Option VersionInfo
  v3 : Option VersionInfo
  deriving DecidableEq, Repr

/-- Version-manager state: registry slots plus the artifact files present on
disk. -/
structure MvmState where
  reg : RegistryEntry
  files : List String
  deriving DecidableEq, Repr

/-- `ModelVersionManager.register_new_model(type, path)` (lines 128-222):
raise `FileNotFoundError` if the new artifact is missing; else if slot 3 is
populated and its file exists, copy it into slot 2 (promotion); else if
slot 3 is empty, slot 1 populated and slot 2 empty, seed slot 2 from
slot 1; finally store the new artifact as slot 3.  Slot 1 is never
written. -/
def register_new_model (s : MvmState) (newModel : String) : Except PyErr MvmState :=
  if s.files.contains newModel then
    let s1 :=
      match s.reg.v3 with
      | some info3 =>
        if s.files.contains info3.path then
          { s with reg := { s.reg with v2 := some info3 } }
        else s
      | none =>
        match s.reg.v1, s.reg.v2 with
        | some info1, none =>
          if s.files.contains info1.path then
            { s with reg := { s.reg with v2 := some info1 } }
          else s
        | _, _ => s
    .ok { s1 with reg := { s1.reg with v3 := some { path := newModel } } }
  else
    .error .notFound

/-- C6: from slot1=A, slot2 empty, slot3 empty (all involved artifact files
present), registering B gives slot2=A, slot3=B; registering C next gives
slot2=B, slot3=C; slot 1 is still A after both calls. -/
theorem register_new_model_rotation (s : MvmState) (a : VersionInfo) (b c : String)
    (h1 : s.reg.v1 = some a) (h2 : s.reg.v2 = none) (h3 : s.reg.v3 = none)
    (ha : s.files.contains a.path = true) (hb : s.files.contains b = true)
    (hc : s.files.contains c = true) :
    ∃ s1 s2, register_new_model s b = .ok s1 ∧ register_new_model s1 c = .ok s2 ∧
      s1.reg.v1 = some a ∧ s1.reg.v2 = some a ∧ s1.reg.v3 = some ⟨b⟩ ∧
      s2.reg.v1 = some a ∧ s2.reg.v2 = some ⟨b⟩ ∧ s2.reg.v3 = some ⟨c⟩ := by
  refine ⟨{ reg := { v1 := s.reg.v1, v2 := some a, v3 := some ⟨b⟩ }, files := s.files },
          { reg := { v1 := s.reg.v1, v2 := some ⟨b⟩, v3 := some ⟨c⟩ }, files := s.files },
          ?_, ?_, ?_, ?_, ?_, ?_, ?_, ?_⟩ <;>
  · have ha' : a.path ∈ s.files := by simpa using ha
    have hb' : b ∈ s.files := by simpa using hb
    have hc' : c ∈ s.files := by simpa using hc
    simp [register_new_model, h1, h2, h3, ha', hb', hc']

/-- Witness for C6: the rotation on a concrete three-artifact state. -/
theorem register_new_model_rotation_witness :
    ∃ s1 s2,
      register_new_model { reg := { v1 := some ⟨"A"⟩, v2 := none, v3 := none },
                           files := ["A", "B", "C"] } "B" = .ok s1 ∧
      register_new_model s1 "C" = .ok s2 ∧
      s1.reg.v1 = some ⟨"A"⟩ ∧ s1.reg.v2 = some ⟨"A"⟩ ∧ s1.reg.v3 = some ⟨"B"⟩ ∧
      s2.reg.v1 = some ⟨"A"⟩ ∧ s2.reg.v2 = some ⟨"B"⟩ ∧ s2.reg.v3 = some ⟨"C"⟩ :=
  register_new_model_rotation
    { reg := { v1 := some ⟨"A"⟩, v2 := none, v3 := none }, files := ["A", "B", "C"] }
    ⟨"A"⟩ "B" "C" rfl rfl rfl (by decide) (by decide) (by decide)

/-! ## `kill_all.py`

One `state_checker` call either raises or returns a state string; the
successive outcomes a loop observes are an oracle list.  A finite oracle
list models both the per-entity/global timeouts and a signal interruption
cutting a phase short (both merely truncate the sequence of polls). -/

/-- Outcome of one `state_checker` call: raised, or returned a state. -/
abbrev PollResult := Except Unit String

/-- `kill_all.wait_for_shutdown` (lines 42-83): poll until the state is
`deleted` or `unknown` (success) or the polls run out (timeout /
interruption: failure); a poll that raises is logged and the loop keeps
waiting. -/
def wait_for_shutdown : List PollResult → Bool
  | [] => false
  | .error _ :: rest => wait_for_shutdown rest
  | .ok s :: rest =>
    if s = "deleted" ∨ s = "unknown" then true else wait_for_shutdown rest

/-- The send phase's decision for one entity (lines 117-123, 128-134):
write `delete` unless the entity is already `deleted`/`unknown`; a raising
check is caught and logged, and nothing is written. -/
def sendDelete (r : PollResult) : Bool :=
  match r with
  | .error _ => false
  | .ok s => ¬ (s = "deleted" ∨ s = "unknown")

/-- Environment of one `kill_all` run: the poll outcomes each phase
observes, plus an optional exception raised outside the per-entity
`try`/`except` wrappers (caught by the outer handler, lines 166-169). -/
structure KillEnv where
  consumerChecks : List PollResult
  producerCheck : PollResult
  consumerWaits : List (List PollResult)
  producerWait : List PollResult
  unexpected : Option PyErr

/-- Observable result of a `kill_all` run. -/
structure KillResult where
  exitCode : Nat
  sent : List Bool
  producerSent : Bool
  waited : List Bool
  producerWaited : Bool
  deriving DecidableEq, Repr

/-- `kill_all.main` (lines 86-174): broadcast `delete`, wait for each
entity, clean up.  The whole body sits in `try ... except Exception` (the
handler logs and does not re-raise) with `finally: sys.exit(0)`; the
`finally` clause runs on every path — including a propagating
non-`Exception` `BaseException`, which the `sys.exit(0)` supersedes — so
the recorded exit status is 0 regardless of the environment. -/
def kill_all_main (env : KillEnv) : KillResult :=
  let sent := env.consumerChecks.map sendDelete
  let psent := sendDelete env.producerCheck
  let waited := env.consumerWaits.map wait_for_shutdown
  let pwaited := wait_for_shutdown env.producerWait
  match env.unexpected with
  | some _ =>
    { exitCode := 0, sent := sent, producerSent := psent,
      waited := waited, producerWaited := pwaited }
  | none =>
    { exitCode := 0, sent := sent, producerSent := psent,
      waited := waited, producerWaited := pwaited }

/-- C9: every `kill_all` run exits with status 0 — also when internal
errors occur (`unexpected`, raising polls) and when an entity never reports
`deleted` before its polls run out (second conjunct: a full 60 s wait on an
entity stuck in `running` times out with `false`, yet the exit status is
still 0). -/
theorem kill_all_always_exits_zero :
    (∀ env : KillEnv, (kill_all_main env).exitCode = 0) ∧
    wait_for_shutdown (List.replicate 12 (.ok "running")) = false ∧
    (kill_all_main
      { consumerChecks := [.ok "running", .error ()], producerCheck := .ok "running",
        consumerWaits := [List.replicate 12 (.ok "running"), []],
        producerWait := List.replicate 12 (.ok "running"),
        unexpected := some .internalError }).exitCode = 0 := by
  refine ⟨fun env => ?_, by decide, by decide⟩
  unfold kill_all_main
  cases env.unexpected <;> rfl

/-! ## `CryptoDB.upsert_predictions` (db.py lines 669-771)

A prediction input is an ndarray/list (modelled as one constructor: both
normalise to a plain list), a numeric scalar, or a NaN/None.  The
string-parsing branch of `normalize_pred` is elided; no caller in the
consumer path passes strings.  `batch.update` on a missing document makes
the batch commit raise `NotFound` and apply nothing (Firestore batches are
atomic). -/

/-- Input to `normalize_pred`. -/
inductive PredInput where
  | arr (xs : List Int)
  | scalar (x : Int)
  | pnull
  deriving DecidableEq, Repr

/-- `db.normalize_pred` (lines 31-46): ndarray/list/tuple → plain list,
scalar → singleton list, None/NaN → `float(None)` raises `TypeError`. -/
def normalize_pred : PredInput → Except PyErr (List Int)
  | .arr xs => .ok xs
  | .scalar x => .ok [x]
  | .pnull => .error .typeError

/-- Document lookup by id (`collection_ref.document(doc_id).get()`). -/
def lookupDoc (s : Store) (id : Int) : Option Doc :=
  match s with
  | [] => none
  | (id', d) :: rest => if id' = id then some d else lookupDoc rest id

/-- `doc.exists` for the given id. -/
def containsId (s : Store) (id : Int) : Bool :=
  (lookupDoc s id).isSome

/-- `batch.update(doc_ref, fields)` against the store: set the field on an
existing document, or fail (`NotFound`) when the document is missing. -/
def updateDoc (s : Store) (id : Int) (k : String) (v : PyVal) : Option Store :=
  match s with
  | [] => none
  | (id', d) :: rest =>
    if id' = id then some ((id, setField d k v) :: rest)
    else (updateDoc rest id k v).map (fun s' => (id', d) :: s')

/-- Commit a batch of field updates atomically: if any target document is
missing, the commit raises and nothing is applied (callers keep the
pre-commit store in that case). -/
def applyUpdates (s : Store) (batch : List (Int × String × PyVal)) : Option Store :=
  match batch with
  | [] => some s
  | (id, k, v) :: rest =>
    match updateDoc s id k v with
    | none => none
    | some s' => applyUpdates s' rest

/-- The batch.update loop of the small (row-wise) path of
`upsert_predictions` (lines 736-751): normalise each prediction, buffer the
update, commit every 500 and at the end.  A `NotFound` from a commit, or a
`TypeError` from `normalize_pred`, propagates with the store as of the last
successful commit. -/
def upsert_update_loop (store : Store) (colName : String)
    (items : List (Int × PredInput)) (batch : List (Int × String × PyVal))
    (count : Nat) : Store × Option PyErr :=
  match items with
  | [] =>
    if count > 0 then
      match applyUpdates store batch.reverse with
      | some s' => (s', none)
      | none => (store, some .notFound)
    else (store, none)
  | (ot, p) :: rest =>
    match normalize_pred p with
    | .error e => (store, some e)
    | .ok v =>
      let batch' := (ot, colName, PyVal.arr v) :: batch
      if count + 1 ≥ 500 then
        match applyUpdates store batch'.reverse with
        | some s' => upsert_update_loop s' colName rest [] 0
        | none => (store, some .notFound)
      else upsert_update_loop store colName rest batch' (count + 1)

/-- Minimum of a list of integers, `none` on the empty list. -/
def minTime : List Int → Option Int
  | [] => none
  | t :: ts =>
    match minTime ts with
    | none => some t
    | some m => some (min t m)

/-- Earliest `open_time` in the collection
(`order_by(open_time, ASCENDING).limit(1)`, db.py lines 539-545). -/
def firstTime (s : Store) : Option Int :=
  minTime (storeTimes s)

/-- Normalise a whole prediction column
(`pred_df["pred"].apply(normalize_pred)`, line 562): the first failure
propagates before any write. -/
def normalizeAll (pairs : List (Int × PredInput)) :
    Except PyErr (List (Int × List Int)) :=
  match pairs with
  | [] => .ok []
  | (t, p) :: rest =>
    match normalize_pred p with
    | .error e => .error e
    | .ok v => (normalizeAll rest).map (fun l => (t, v) :: l)

/-- Update the field on the document with the given id if it exists, else
leave the store unchanged (the `if doc.exists: batch.update(...)` guard of
`bulk_update_predictions`, lines 574-579). -/
def updateIfExists (s : Store) (id : Int) (k : String) (v : PyVal) : Store :=
  match s with
  | [] => []
  | (id', d) :: rest =>
    if id' = id then (id, setField d k v) :: rest
    else (id', d) :: updateIfExists rest id k v

/-- `CryptoDB.bulk_update_predictions` (lines 523-589): skip when the
collection is empty; drop pairs before the collection's earliest timestamp;
normalise the prediction column; then update the field on each existing
target document (missing documents are skipped, not inserted). -/
def bulk_update_predictions (store : Store) (colName : String)
    (pairs : List (Int × PredInput)) : Store × Option PyErr :=
  match firstTime store with
  | none => (store, none)
  | some first =>
    let pairs := pairs.filter (fun p => decide (first ≤ p.1))
    if pairs.isEmpty then (store, none)
    else
      match normalizeAll pairs with
      | .error e => (store, some e)
      | .ok npairs =>
        (npairs.foldl (fun acc p => updateIfExists acc p.1 colName (.arr p.2)) store,
         none)

/-- `pd.notna` on a prediction cell (`dropna(subset=["pred"])`). -/
def predNotNull : PredInput → Bool
  | .pnull => false
  | _ => true

/-- The bulk (large-batch) path of `upsert_predictions`
(lines 695-733): best-effort field update of existing documents, then
existence checks, then a bulk insert of the rows for still-missing
timestamps.  `bulk_insert_df` builds its documents from the six candle
columns only, so the appended prediction column is not stored for inserted
rows (lines 287-294). -/
def upsert_bulk_path (store : Store) (colName : String) (open_times : List Int)
    (preds : List PredInput) (original : List CandleRow) : Store × Option PyErr :=
  let pairs := (open_times.zip preds).filter (fun p => predNotNull p.2)
  let upd := if pairs.isEmpty then (store, none)
             else bulk_update_predictions store colName pairs
  match upd with
  | (s1, some e) => (s1, some e)
  | (s1, none) =>
    let missing := open_times.filter (fun ot => ¬ containsId s1 ot)
    if missing.isEmpty then (s1, none)
    else
      let insertRows := original.filter (fun r => missing.contains r.open_time)
      let res := bulk_insert_df insertRows s1 []
      (res.store, res.error)

/-- `CryptoDB.upsert_predictions` (lines 669-771): trim the collection,
validate lengths, then the small (row-wise update + insert-missing) path
for at most 100 timestamps, the bulk path above that.  In the small path
the update loop has already raised `NotFound` for any missing document, so
the subsequent missing check finds nothing; it is kept because the source
keeps it. -/
def upsert_predictions (store : Store) (colName : String) (open_times : List Int)
    (preds : List PredInput) (original : List CandleRow) : Store × Option PyErr :=
  let store := keep_last_365_days store
  if preds.length = 0 then (store, none)
  else if open_times.length ≠ preds.length then (store, some .valueError)
  else if open_times.length > 100 then
    upsert_bulk_path store colName open_times preds original
  else
    match upsert_update_loop store colName (open_times.zip preds) [] 0 with
    | (s', some e) => (s', some e)
    | (s', none) =>
      let missing := open_times.filter (fun ot => ¬ containsId s' ot)
      if missing.isEmpty then (s', none)
      else
        let insertRows := original.filter (fun r => missing.contains r.open_time)
        let res := bulk_insert_df insertRows s' []
        (res.store, res.error)

/-! ### Store lemmas used for the idempotence of `upsert_predictions` -/

theorem getField_setField_self (d : Doc) (k : String) (v : PyVal) :
    getField (setField d k v) k = some v := by
  induction d with
  | nil => simp [setField, getField]
  | cons kv rest ih =>
    obtain ⟨k', v'⟩ := kv
    by_cases h : k' = k <;> simp [setField, getField, h, ih]

theorem getField_setField_ne (d : Doc) (k v k') (h : k ≠ k') :
    getField (setField d k v) k' = getField d k' := by
  induction d with
  | nil => simp [setField, getField, h]
  | cons kv rest ih =>
    obtain ⟨k0, v0⟩ := kv
    by_cases h0 : k0 = k
    · subst h0
      simp [setField, getField, h]
    · simp [setField, getField, h0, ih]

theorem setField_eq_of_getField (d : Doc) (k : String) (v : PyVal)
    (h : getField d k = some v) : setField d k v = d := by
  induction d with
  | nil => simp [getField] at h
  | cons kv rest ih =>
    obtain ⟨k0, v0⟩ := kv
    by_cases h0 : k0 = k
    · subst h0
      simp [getField] at h
      simp [setField, h]
    · simp [getField, h0] at h
      simp [setField, h0, ih h]

theorem getTime_setField_ne (d : Doc) (k : String) (v : PyVal)
    (h : k ≠ "open_time") : getTime (setField d k v) = getTime d := by
  simp [getTime, getField_setField_ne d k v _ h]

theorem updateDoc_map_fst (s : Store) (id : Int) (k : String) (v : PyVal)
    (s' : Store) (h : updateDoc s id k v = some s') :
    s'.map Prod.fst = s.map Prod.fst := by
  induction s generalizing s' with
  | nil => simp [updateDoc] at h
  | cons p rest ih =>
    obtain ⟨id', d⟩ := p
    by_cases h0 : id' = id
    · subst h0
      simp [updateDoc] at h
      subst h
      simp
    · simp [updateDoc, h0] at h
      obtain ⟨t, ht, rfl⟩ := h
      simp [ih t ht]

theorem updateDoc_exists (s : Store) (id : Int) (k : String) (v : PyVal)
    (d : Doc) (h : lookupDoc s id = some d) :
    ∃ s', updateDoc s id k v = some s' := by
  induction s with
  | nil => simp [lookupDoc] at h
  | cons p rest ih =>
    obtain ⟨id', d'⟩ := p
    by_cases h0 : id' = id
    · exact ⟨(id, setField d' k v) :: rest, by simp [updateDoc, h0]⟩
    · simp [lookupDoc, h0] at h
      obtain ⟨t, ht⟩ := ih h
      exact ⟨(id', d') :: t, by simp [updateDoc, h0, ht]⟩

theorem updateDoc_lookup_self (s : Store) (id : Int) (k : String) (v : PyVal)
    (d : Doc) (s' : Store) (hl : lookupDoc s id = some d)
    (h : updateDoc s id k v = some s') :
    lookupDoc s' id = some (setField d k v) := by
  induction s generalizing s' with
  | nil => simp [lookupDoc] at hl
  | cons p rest ih =>
    obtain ⟨id', d'⟩ := p
    by_cases h0 : id' = id
    · subst h0
      simp [lookupDoc] at hl
      subst hl
      simp [updateDoc] at h
      subst h
      simp [lookupDoc]
    · simp [lookupDoc, h0] at hl
      simp [updateDoc, h0] at h
      obtain ⟨t, ht, rfl⟩ := h
      simp [lookupDoc, h0, ih t hl ht]

theorem storeTimes_updateDoc (s : Store) (id : Int) (k : String) (v : PyVal)
    (s' : Store) (hk : k ≠ "open_time") (h : updateDoc s id k v = some s') :
    storeTimes s' = storeTimes s := by
  induction s generalizing s' with
  | nil => simp [updateDoc] at h
  | cons p rest ih =>
    obtain ⟨id', d⟩ := p
    by_cases h0 : id' = id
    · subst h0
      simp [updateDoc] at h
      subst h
      simp [storeTimes, List.filterMap_cons, getTime_setField_ne d k v hk]
    · simp [updateDoc, h0] at h
      obtain ⟨t, ht, rfl⟩ := h
      simp only [storeTimes, List.filterMap_cons] at *
      cases getTime d <;> simp_all [ih t ht]

theorem mem_updateDoc (s : Store) (id : Int) (k : String) (v : PyVal)
    (s' : Store) (x : Int × Doc) (h : updateDoc s id k v = some s')
    (hx : x ∈ s') :
    x ∈ s ∨ ∃ d, x = (id, setField d k v) ∧ (id, d) ∈ s := by
  induction s generalizing s' with
  | nil => simp [updateDoc] at h
  | cons p rest ih =>
    obtain ⟨id', d⟩ := p
    by_cases h0 : id' = id
    · subst h0
      simp [updateDoc] at h
      subst h
      rcases List.mem_cons.mp hx with hx1 | hx2
      · exact Or.inr ⟨d, hx1, List.mem_cons_self _ _⟩
      · exact Or.inl (List.mem_cons_of_mem _ hx2)
    · simp [updateDoc, h0] at h
      obtain ⟨t, ht, rfl⟩ := h
      rcases List.mem_cons.mp hx with hx1 | hx2
      · exact Or.inl (by simp [hx1])
      · rcases ih t ht hx2 with hmem | ⟨d0, hxe, hd0⟩
        · exact Or.inl (List.mem_cons_of_mem _ hmem)
        · exact Or.inr ⟨d0, hxe, List.mem_cons_of_mem _ hd0⟩

theorem updateDoc_fixed (s : Store) (id : Int) (k : String) (v : PyVal)
    (d : Doc) (hl : lookupDoc s id = some d) (hf : setField d k v = d) :
    updateDoc s id k v = some s := by
  induction s with
  | nil => simp [lookupDoc] at hl
  | cons p rest ih =>
    obtain ⟨id', d'⟩ := p
    by_cases h0 : id' = id
    · subst h0
      simp [lookupDoc] at hl
      subst hl
      simp [updateDoc, hf]
    · simp [lookupDoc, h0] at hl
      simp [updateDoc, h0, ih hl]

theorem maxTime_mem (ts : List Int) (m : Int) (h : maxTime ts = some m) :
    m ∈ ts := by
  induction ts generalizing m with
  | nil => simp [maxTime] at h
  | cons t rest ih =>
    simp only [maxTime] at h
    cases hr : maxTime rest with
    | none =>
      rw [hr] at h
      simp at h
      simp [h]
    | some m' =>
      rw [hr] at h
      simp at h
      subst h
      rcases le_total t m' with hle | hle
      · simp [max_eq_right hle, ih m' hr]
      · simp [max_eq_left hle]

theorem maxTime_eq_none (ts : List Int) (h : maxTime ts = none) : ts = [] := by
  cases ts with
  | nil => rfl
  | cons t rest =>
    simp only [maxTime] at h
    cases hr : maxTime rest <;> rw [hr] at h <;> simp at h

theorem le_maxTime (ts : List Int) (m : Int) (h : maxTime ts = some m) :
    ∀ t ∈ ts, t ≤ m := by
  induction ts generalizing m with
  | nil => simp
  | cons t rest ih =>
    simp only [maxTime] at h
    cases hr : maxTime rest with
    | none =>
      rw [hr] at h
      simp at h
      subst h
      have he := maxTime_eq_none rest hr
      subst he
      intro x hx
      rcases List.mem_cons.mp hx with rfl | hx2
      · exact le_refl x
      · simp at hx2
    | some m' =>
      rw [hr] at h
      simp at h
      subst h
      intro x hx
      rcases List.mem_cons.mp hx with rfl | hx2
      · exact le_max_left _ _
      · exact le_trans (ih m' hr x hx2) (le_max_right _ _)

theorem maxTime_eq_of (ts : List Int) (m : Int) (hm : m ∈ ts)
    (hle : ∀ t ∈ ts, t ≤ m) : maxTime ts = some m := by
  induction ts with
  | nil => simp at hm
  | cons t rest ih =>
    simp only [maxTime]
    cases hr : maxTime rest with
    | none =>
      have he := maxTime_eq_none rest hr
      subst he
      simp at hm
      simp [hm]
    | some m' =>
      rcases List.mem_cons.mp hm with rfl | hm2
      · have h1 : m' ≤ m := hle m' (List.mem_cons_of_mem _ (maxTime_mem rest m' hr))
        simp [max_eq_left h1]
      · have h2 : maxTime rest = some m := ih hm2 (fun x hx => hle x (List.mem_cons_of_mem _ hx))
        rw [hr] at h2
        simp at h2
        subst h2
        simp [max_eq_right (hle t (List.mem_cons_self _ _))]

theorem keep_last_eq (s : Store) : keep_last_365_days s =
    match latestTime s with
    | none => s
    | some latest =>
      s.filter (fun p =>
        match getTime p.2 with
        | some t => decide (¬ (t < latest - days180))
        | none => true) := rfl

theorem storeTimes_keep_pred (s : Store) (L : Int) :
    storeTimes (s.filter (fun p =>
      match getTime p.2 with
      | some t => decide (¬ (t < L - days180))
      | none => true)) =
    (storeTimes s).filter (fun t => decide (¬ (t < L - days180))) := by
  induction s with
  | nil => rfl
  | cons p rest ih =>
    obtain ⟨id, d⟩ := p
    cases hd : getTime d with
    | none =>
      simp [storeTimes, List.filter_cons, List.filterMap_cons, hd] at *
      exact ih
    | some t =>
      by_cases hq : L ≤ t + days180
      · simp [storeTimes, List.filter_cons, List.filterMap_cons, hd, hq] at ih ⊢
        exact ih
      · simp [storeTimes, List.filter_cons, List.filterMap_cons, hd, hq] at ih ⊢
        exact ih

theorem latestTime_keep_last (s : Store) :
    latestTime (keep_last_365_days s) = latestTime s := by
  cases hL : latestTime s with
  | none =>
    rw [keep_last_eq, hL]
    exact hL
  | some L =>
    rw [keep_last_eq, hL]
    show maxTime (storeTimes (s.filter (fun p =>
      match getTime p.2 with
      | some t => decide (¬ (t < L - days180))
      | none => true))) = some L
    rw [storeTimes_keep_pred s L]
    have hmemL : L ∈ storeTimes s := maxTime_mem _ _ hL
    have hle := le_maxTime _ _ hL
    apply maxTime_eq_of
    · refine List.mem_filter.mpr ⟨hmemL, ?_⟩
      have hd : days180 = 15552000 := rfl
      simp
      omega
    · intro t ht
      exact hle t (List.mem_filter.mp ht).1

theorem keep_last_idem (s : Store) :
    keep_last_365_days (keep_last_365_days s) = keep_last_365_days s := by
  cases hL : latestTime s with
  | none =>
    have h1 : keep_last_365_days s = s := by rw [keep_last_eq, hL]
    rw [h1, h1]
  | some L =>
    have hlt : latestTime (keep_last_365_days s) = some L :=
      (latestTime_keep_last s).trans hL
    rw [keep_last_eq (keep_last_365_days s), hlt]
    apply List.filter_eq_self.mpr
    intro x hx
    rw [keep_last_eq, hL] at hx
    exact (List.mem_filter.mp hx).2

theorem mem_trimmed (s : Store) (L : Int) (hs : keep_last_365_days s = s)
    (hL : latestTime s = some L) (x : Int × Doc) (hmem : x ∈ s)
    (t : Int) (ht : getTime x.2 = some t) : ¬ (t < L - days180) := by
  rw [keep_last_eq, hL] at hs
  have hx := List.filter_eq_self.mp hs x hmem
  rw [ht] at hx
  exact of_decide_eq_true hx

theorem keep_last_update_fixed (s s' : Store) (id : Int) (k : String)
    (v : PyVal) (hk : k ≠ "open_time") (hs : keep_last_365_days s = s)
    (hu : updateDoc s id k v = some s') :
    keep_last_365_days s' = s' := by
  have hts : storeTimes s' = storeTimes s := storeTimes_updateDoc s id k v s' hk hu
  have hlt : latestTime s' = latestTime s := by
    show maxTime (storeTimes s') = maxTime (storeTimes s)
    rw [hts]
  cases hL : latestTime s with
  | none =>
    rw [keep_last_eq, hlt, hL]
  | some L =>
    rw [keep_last_eq, hlt, hL]
    apply List.filter_eq_self.mpr
    intro x hx
    rcases mem_updateDoc s id k v s' x hu hx with hmem | ⟨d0, hxe, hd0⟩
    · cases hgt : getTime x.2 with
      | none => simp [hgt]
      | some t =>
        simp only [hgt]
        exact decide_eq_true (mem_trimmed s L hs hL x hmem t hgt)
    · subst hxe
      cases hgt : getTime d0 with
      | none =>
        simp only [getTime_setField_ne d0 k v hk, hgt]
      | some t =>
        simp only [getTime_setField_ne d0 k v hk, hgt]
        exact decide_eq_true (mem_trimmed s L hs hL (id, d0) hd0 t hgt)

/-- C5: upserting the same prediction twice — two calls to
`upsert_predictions` with the same (collection, model-version column,
`open_time`, prediction) — is idempotent, provided the target candle
document survives retention trimming (the normal operating condition: the
consumer predicts for a candle the producer just stored).  Neither call
raises, the second call leaves the store exactly as the first left it, the
first call creates no document (the id list is unchanged — the document key
is the timestamp itself), and the stored value under the model-version
column is the normalised prediction. -/
theorem upsert_predictions_idempotent (store : Store) (colName : String)
    (ot : Int) (p : PredInput) (orig : List CandleRow) (v : List Int)
    (hn : normalize_pred p = .ok v)
    (hc : containsId (keep_last_365_days store) ot = true)
    (hcol : colName ≠ "open_time") :
    (upsert_predictions store colName [ot] [p] orig).2 = none ∧
    (upsert_predictions (upsert_predictions store colName [ot] [p] orig).1
      colName [ot] [p] orig).2 = none ∧
    (upsert_predictions (upsert_predictions store colName [ot] [p] orig).1
      colName [ot] [p] orig).1 = (upsert_predictions store colName [ot] [p] orig).1 ∧
    (∃ d0, lookupDoc (upsert_predictions store colName [ot] [p] orig).1 ot = some d0 ∧
      getField d0 colName = some (.arr v)) ∧
    (upsert_predictions store colName [ot] [p] orig).1.map Prod.fst
      = (keep_last_365_days store).map Prod.fst := by
  have hd : ∃ d, lookupDoc (keep_last_365_days store) ot = some d := by
    simpa [containsId, Option.isSome_iff_exists] using hc
  obtain ⟨d, hd⟩ := hd
  obtain ⟨s1, hs1⟩ := updateDoc_exists _ ot colName (.arr v) d hd
  have f1 : lookupDoc s1 ot = some (setField d colName (.arr v)) :=
    updateDoc_lookup_self _ ot colName (.arr v) d s1 hd hs1
  have f2 : s1.map Prod.fst = (keep_last_365_days store).map Prod.fst :=
    updateDoc_map_fst _ ot colName (.arr v) s1 hs1
  have f4 : keep_last_365_days (keep_last_365_days store) = keep_last_365_days store :=
    keep_last_idem store
  have f5 : keep_last_365_days s1 = s1 :=
    keep_last_update_fixed _ s1 ot colName (.arr v) hcol f4 hs1
  have f6 : containsId s1 ot = true := by simp [containsId, f1]
  have e1 : upsert_predictions store colName [ot] [p] orig = (s1, none) := by
    simp [upsert_predictions, upsert_update_loop, hn, applyUpdates, hs1, f6]
  have f7 : updateDoc s1 ot colName (.arr v) = some s1 :=
    updateDoc_fixed s1 ot colName (.arr v) (setField d colName (.arr v)) f1
      (setField_eq_of_getField _ _ _ (getField_setField_self d colName (.arr v)))
  have e2 : upsert_predictions s1 colName [ot] [p] orig = (s1, none) := by
    simp [upsert_predictions, f5, upsert_update_loop, hn, applyUpdates, f7, f6]
  rw [e1, e2]
  exact ⟨rfl, rfl, rfl,
    ⟨setField d colName (.arr v), f1, getField_setField_self d colName (.arr v)⟩, f2⟩

/-- Witness for C5: the double upsert on a one-candle store. -/
theorem upsert_predictions_idempotent_witness :
    (upsert_predictions [(5, [("open_time", PyVal.num 5)])] "lightgbm_v1"
      [5] [.scalar 3] []).2 = none ∧
    (upsert_predictions (upsert_predictions [(5, [("open_time", PyVal.num 5)])]
      "lightgbm_v1" [5] [.scalar 3] []).1 "lightgbm_v1" [5] [.scalar 3] []).2 = none ∧
    (upsert_predictions (upsert_predictions [(5, [("open_time", PyVal.num 5)])]
      "lightgbm_v1" [5] [.scalar 3] []).1 "lightgbm_v1" [5] [.scalar 3] []).1
      = (upsert_predictions [(5, [("open_time", PyVal.num 5)])] "lightgbm_v1"
          [5] [.scalar 3] []).1 ∧
    (∃ d0, lookupDoc (upsert_predictions [(5, [("open_time", PyVal.num 5)])]
        "lightgbm_v1" [5] [.scalar 3] []).1 5 = some d0 ∧
      getField d0 "lightgbm_v1" = some (.arr [3])) ∧
    (upsert_predictions [(5, [("open_time", PyVal.num 5)])] "lightgbm_v1"
        [5] [.scalar 3] []).1.map Prod.fst
      = (keep_last_365_days [(5, [("open_time", PyVal.num 5)])]).map Prod.fst :=
  upsert_predictions_idempotent [(5, [("open_time", PyVal.num 5)])] "lightgbm_v1"
    5 (.scalar 3) [] [3] rfl (by decide) (by decide)

/-! ## Consumer streaming loop: `maybe_process` (consumer.py lines 399-507)

One invocation of the message callback, as a function of the polled control
state, the incoming batch, the dedup cursor (`last_processed_time`), the
rolling window, the prediction store, and oracles for the steps whose
outcome is environmental: whether `preprocess_data` returned an empty
feature array (its float arithmetic is not modelled), the result of the
HTTP `get_predictions` call, and whether the CSV append raised.  The
result records the store, the cursor, the window, and whether an upsert was
attempted and with what outcome. -/

/-- `seq_len = 30` (consumer.py line 28). -/
def seq_len : Nat := 30

/-- Insert a row into a time-sorted list. -/
def insertByTime (r : CandleRow) : List CandleRow → List CandleRow
  | [] => [r]
  | x :: xs =>
    if r.open_time ≤ x.open_time then r :: x :: xs else x :: insertByTime r xs

/-- `df.sort_values("open_time")`. -/
def sortByTime : List CandleRow → List CandleRow
  | [] => []
  | x :: xs => insertByTime x (sortByTime xs)

/-- `window_df.iloc[-1]["open_time"]` (the window is non-empty whenever this
is read; 0 is a dead default). -/
def lastOpenTime (l : List CandleRow) : Int :=
  match l.reverse with
  | [] => 0
  | r :: _ => r.open_time

/-- `window_df[[...]].iloc[-1:]`: the last row as a one-row frame. -/
def lastRowOnly (l : List CandleRow) : List CandleRow :=
  match l.reverse with
  | [] => []
  | r :: _ => [r]

/-- Observable result of one `maybe_process` call.  `upsertAttempt` is
`none` when no upsert was attempted, `some none` when an upsert ran and
succeeded, `some (some e)` when it raised `e`. -/
structure MaybeResult where
  store : Store
  cursor : Option Int
  window : List CandleRow
  upsertAttempt : Option (Option PyErr)
  deriving DecidableEq, Repr

/-- Sort the incoming batch and discard records at or before the cursor
(lines 429-434). -/
def dedupFrame (batch : List CandleRow) (last : Option Int) : List CandleRow :=
  match last with
  | some t0 => (sortByTime batch).filter (fun r => decide (t0 < r.open_time))
  | none => sortByTime batch

/-- Extend the rolling window and keep only the last `seq_len` rows
(lines 440-444). -/
def newWindow (window df : List CandleRow) : List CandleRow :=
  if (window ++ df).length > seq_len then
    (window ++ df).drop ((window ++ df).length - seq_len)
  else window ++ df

/-- `maybe_process`: state gate, batch → frame, sort, cursor dedup, rolling
window maintenance, then prediction + upsert + CSV append; the cursor is
assigned (line 496) only after the upsert (line 473) and CSV append; the
inner `except` (line 500) catches prediction, upsert and CSV errors and
leaves the cursor untouched. -/
def maybe_process (state : String) (batch : List CandleRow) (last : Option Int)
    (window : List CandleRow) (store : Store) (colName : String)
    (featuresEmpty : Bool) (predsResult : Except PyErr (List PredInput))
    (csvOk : Bool) : MaybeResult :=
  if state = "wait" ∨ state = "pause" ∨ state = "paused" ∨ state = "delete" then
    { store := store, cursor := last, window := window, upsertAttempt := none }
  else if state ≠ "running" then
    { store := store, cursor := last, window := window, upsertAttempt := none }
  else if batch.isEmpty then
    { store := store, cursor := last, window := window, upsertAttempt := none }
  else if (dedupFrame batch last).isEmpty then
    { store := store, cursor := last, window := window, upsertAttempt := none }
  else if (newWindow window (dedupFrame batch last)).length < seq_len then
    { store := store, cursor := last,
      window := newWindow window (dedupFrame batch last), upsertAttempt := none }
  else if featuresEmpty then
    { store := store, cursor := last,
      window := newWindow window (dedupFrame batch last), upsertAttempt := none }
  else
    match predsResult with
    | .error _ =>
      { store := store, cursor := last,
        window := newWindow window (dedupFrame batch last), upsertAttempt := none }
    | .ok [] =>
      { store := store, cursor := last,
        window := newWindow window (dedupFrame batch last), upsertAttempt := none }
    | .ok (p :: _) =>
      match upsert_predictions store colName
          [lastOpenTime (newWindow window (dedupFrame batch last))] [p]
          (lastRowOnly (newWindow window (dedupFrame batch last))) with
      | (s1, some e) =>
        { store := s1, cursor := last,
          window := newWindow window (dedupFrame batch last),
          upsertAttempt := some (some e) }
      | (s1, none) =>
        if csvOk then
          { store := s1,
            cursor := some (lastOpenTime (newWindow window (dedupFrame batch last))),
            window := newWindow window (dedupFrame batch last),
            upsertAttempt := some none }
        else
          { store := s1, cursor := last,
            window := newWindow window (dedupFrame batch last),
            upsertAttempt := some none }

/-- C8: the dedup cursor moves only on the success path.  If the cursor
changed, an upsert was attempted and succeeded; and whenever the upsert
raised, the cursor retains its previous value. -/
theorem consumer_cursor_advances_only_after_upsert (state : String)
    (batch : List CandleRow) (last : Option Int) (window : List CandleRow)
    (store : Store) (colName : String) (featuresEmpty : Bool)
    (predsResult : Except PyErr (List PredInput)) (csvOk : Bool) :
    ((maybe_process state batch last window store colName featuresEmpty
        predsResult csvOk).cursor ≠ last →
      (maybe_process state batch last window store colName featuresEmpty
        predsResult csvOk).upsertAttempt = some none) ∧
    (∀ e, (maybe_process state batch last window store colName featuresEmpty
        predsResult csvOk).upsertAttempt = some (some e) →
      (maybe_process state batch last window store colName featuresEmpty
        predsResult csvOk).cursor = last) := by
  unfold maybe_process
  repeat' split
  all_goals
    first
      | exact ⟨fun h => absurd rfl h, fun e he => Option.noConfusion he⟩
      | exact ⟨fun h => absurd rfl h, fun _ _ => rfl⟩
      | exact ⟨fun _ => rfl, fun e he => Option.noConfusion (Option.some.inj he)⟩

/-- One synthetic one-minute candle. -/
def demoRow (t : Int) : CandleRow :=
  { open_time := t, opn := some 1, high := some 1, low := some 1,
    close := some 1, volume := some 1 }

/-- A 29-candle rolling window (timestamps 1..29). -/
def demoWindow29 : List CandleRow :=
  (List.range 29).map (fun i => demoRow (Int.ofNat i + 1))

/-- A `maybe_process` call whose upsert succeeds: the incoming candle 30
fills the window to `seq_len` and its document exists in the store. -/
def c8SuccessRun : MaybeResult :=
  maybe_process "running" [demoRow 30] (some 0) demoWindow29
    [(30, [("open_time", PyVal.num 30)])] "lightgbm_v1" false
    (.ok [.scalar 2]) true

/-- The same call against an empty store: the upsert raises `NotFound`. -/
def c8FailRun : MaybeResult :=
  maybe_process "running" [demoRow 30] (some 0) demoWindow29
    [] "lightgbm_v1" false (.ok [.scalar 2]) true

/-- Witness for C8: on the success run the advanced cursor certifies a
successful upsert; on the failing run the raised upsert leaves the cursor
at its previous value. -/
theorem consumer_cursor_advances_only_after_upsert_witness :
    c8SuccessRun.upsertAttempt = some none ∧ c8FailRun.cursor = some 0 :=
  ⟨(consumer_cursor_advances_only_after_upsert "running" [demoRow 30] (some 0)
      demoWindow29 [(30, [("open_time", PyVal.num 30)])] "lightgbm_v1" false
      (.ok [.scalar 2]) true).1 (by decide),
   (consumer_cursor_advances_only_after_upsert "running" [demoRow 30] (some 0)
      demoWindow29 [] "lightgbm_v1" false (.ok [.scalar 2]) true).2
      .notFound (by decide)⟩

end CryptoML
